import Mathlib

/-
Verification development for the RAG HTTP backend in src/src/app.py.

The Python source is shallowly embedded: each Python function that the
claims mention becomes a Lean definition of the same name.  External
dependencies (the Azure search client and the Azure OpenAI client) are
modelled as attempt-indexed fallible functions so that the retry loop can
observe a fresh outcome on each attempt.  Exceptions become the `Except`
monad; the exception object is modelled by `AppError` (its class membership
in the retryable exception tuple plus its message string).  Python string
operations are code-point based, so slicing `s[:n]`, `.lower()` and
`needle in haystack` are modelled on `String.toList`.
-/

/- Python `s.lower()` (ASCII case folding on code points). -/
def pyLower (s : String) : String :=
  String.mk (s.toList.map Char.toLower)

/- Python `needle in haystack` substring test. -/
def strContains (s pat : String) : Bool :=
  (List.range (s.toList.length + 1)).any (fun i => pat.toList.isPrefixOf (s.toList.drop i))

/- Python `s[:n]` slicing. -/
def pyTake (s : String) (n : Nat) : String :=
  String.mk (s.toList.take n)

/- A Python exception as observed by the retry logic of app.py: whether it
is an instance of one of the connection-class exception types listed in
`is_retryable_error` (socket.gaierror, socket.timeout, ConnectionError,
httpx.ConnectError, httpx.ConnectTimeout, httpx.ReadTimeout), and its
`str(e)` message. -/
structure AppError where
  isConnClass : Bool
  msg : String
deriving DecidableEq

instance [DecidableEq ε] [DecidableEq α] : DecidableEq (Except ε α) := fun a b =>
  match a, b with
  | Except.ok x, Except.ok y =>
    if h : x = y then isTrue (by rw [h]) else isFalse (by intro hc; cases hc; exact h rfl)
  | Except.ok _, Except.error _ => isFalse (by intro hc; cases hc)
  | Except.error _, Except.ok _ => isFalse (by intro hc; cases hc)
  | Except.error x, Except.error y =>
    if h : x = y then isTrue (by rw [h]) else isFalse (by intro hc; cases hc; exact h rfl)

/- app.py lines 199-205. -/
def is_retryable_error (e : AppError) : Bool :=
  e.isConnClass ||
    (let error_str := pyLower e.msg
     strContains error_str "timeout" || strContains error_str "connection" ||
       strContains error_str "network" || strContains error_str "dns")

example : is_retryable_error ⟨false, "Read Timeout on call"⟩ = true := by decide
example : is_retryable_error ⟨false, "401 unauthorized"⟩ = false := by decide

/- app.py lines 207-227, `retry_with_backoff`.  The loop is embedded with
`remaining = max_retries - (failures so far)` as the structurally
decreasing argument: the Python loop raises as soon as
`retries > max_retries` (`retries` counts failures, starting at 1), i.e. as
soon as `remaining` hits zero.  The function under retry is attempt-indexed
(attempt `i` is the `i`-th call of `func`, starting at 0).  The result
records the Python outcome (returned value or raised error), the number of
times `func` was invoked, and the list of `time.sleep` durations in order. -/
def retryAux (func : Nat → Except AppError α) (maxBackoff : Nat) :
    Nat → Nat → Nat → Except AppError α × Nat × List Nat
  | 0, _, i =>
    match func i with
    | Except.ok v => (Except.ok v, i + 1, [])
    | Except.error e => (Except.error e, i + 1, [])
  | r + 1, backoff, i =>
    match func i with
    | Except.ok v => (Except.ok v, i + 1, [])
    | Except.error e =>
      if is_retryable_error e then
        let out := retryAux func maxBackoff r (min (backoff * 2) maxBackoff) (i + 1)
        (out.1, out.2.1, backoff :: out.2.2)
      else (Except.error e, i + 1, [])

/- app.py line 207: `retry_with_backoff(func, max_retries=3, initial_backoff=1, max_backoff=16)`;
the defaults are supplied explicitly at each call site below. -/
def retry_with_backoff (func : Nat → Except AppError α) (max_retries initial_backoff max_backoff : Nat) :
    Except AppError α × Nat × List Nat :=
  retryAux func max_backoff max_retries initial_backoff 0

example :
    retry_with_backoff (fun _ => (Except.error ⟨true, "timeout"⟩ : Except AppError Nat)) 3 1 16 =
      (Except.error ⟨true, "timeout"⟩, 4, [1, 2, 4]) := by decide

example :
    retry_with_backoff (fun _ => (Except.error ⟨false, "bad auth"⟩ : Except AppError Nat)) 3 1 16 =
      (Except.error ⟨false, "bad auth"⟩, 1, []) := by decide

/- Arithmetic helper: capping before or after multiplying by a positive
factor and re-capping gives the same result. -/
theorem min_mul_min (c m p : Nat) (hp : 0 < p) : min (min c m * p) m = min (c * p) m := by
  rcases Nat.le_total c m with h | h
  · rw [Nat.min_eq_left h]
  · rw [Nat.min_eq_right h]
    have hp1 : 1 ≤ p := hp
    have h1 : m ≤ m * p := le_mul_of_one_le_right (Nat.zero_le m) hp1
    have h2 : m ≤ c * p := le_trans h (le_mul_of_one_le_right (Nat.zero_le c) hp1)
    rw [Nat.min_eq_right h1, Nat.min_eq_right h2]

/- Main retry lemma: when every attempt fails with a retryable error, the
loop performs all `remaining + 1` attempts, propagates the error of the
last attempt, and sleeps the geometric sequence capped at `maxBackoff`. -/
theorem retryAux_all_retryable (func : Nat → Except AppError α) (errAt : Nat → AppError)
    (h1 : ∀ i, func i = Except.error (errAt i))
    (h2 : ∀ i, is_retryable_error (errAt i) = true) (mb : Nat) :
    ∀ r b i, b ≤ mb →
      retryAux func mb r b i =
        (Except.error (errAt (i + r)), i + r + 1,
          (List.range r).map (fun k => min (b * 2 ^ k) mb)) := by
  intro r
  induction r with
  | zero =>
    intro b i _
    simp [retryAux, h1 i]
  | succ r ih =>
    intro b i hb
    have hrec := ih (min (b * 2) mb) (i + 1) (Nat.min_le_right _ _)
    rw [show i + 1 + r = i + (r + 1) from by omega] at hrec
    simp only [retryAux, h1 i, h2 i, if_true, hrec]
    congr 1
    congr 1
    rw [List.range_succ_eq_map, List.map_cons, List.map_map]
    congr 1
    · simp [Nat.min_eq_left hb]
    · apply List.map_congr_left
      intro k _
      simp only [Function.comp_apply]
      rw [min_mul_min _ _ _ (pow_pos (by norm_num : (0 : ℕ) < 2) k)]
      congr 1
      rw [pow_succ]
      ring

/-- C1: an operation that fails on every attempt with a retryable error is
invoked exactly `max_retries + 1` times, the failure of the last attempt is
propagated, and the sleep before the k-th retry (k starting at 0) is
`min (initial_backoff * 2 ^ k) max_backoff` (under the spec's parameter
contract `initial_backoff ≤ max_backoff`). -/
theorem retry_exhausts_retryable (func : Nat → Except AppError α) (errAt : Nat → AppError)
    (m b mb : Nat)
    (h1 : ∀ i, func i = Except.error (errAt i))
    (h2 : ∀ i, is_retryable_error (errAt i) = true)
    (hb : b ≤ mb) :
    retry_with_backoff func m b mb =
      (Except.error (errAt m), m + 1, (List.range m).map (fun k => min (b * 2 ^ k) mb)) := by
  have := retryAux_all_retryable func errAt h1 h2 mb m b 0 hb
  simpa [retry_with_backoff] using this

/-- Witness for C1: a concrete operation failing every attempt with a
retryable timeout error, at `max_retries = 3`, `initial_backoff = 1`,
`max_backoff = 16`: four invocations, last failure propagated, sleeps 1, 2, 4. -/
theorem retry_exhausts_retryable_witness :
    is_retryable_error ⟨true, "timeout"⟩ = true ∧ (1 : Nat) ≤ 16 ∧
    retry_with_backoff (fun _ : Nat => (Except.error ⟨true, "timeout"⟩ : Except AppError Nat)) 3 1 16 =
      (Except.error ⟨true, "timeout"⟩, 4, [1, 2, 4]) :=
  ⟨by decide, by decide,
    retry_exhausts_retryable (fun _ => Except.error ⟨true, "timeout"⟩)
      (fun _ => ⟨true, "timeout"⟩) 3 1 16 (fun _ => rfl)
      (fun _ => show is_retryable_error ⟨true, "timeout"⟩ = true by decide) (by decide)⟩

/-- C2: an operation whose first failure is classified fatal (not
retryable) is invoked exactly once, no sleep is performed, and that same
failure is re-raised unchanged. -/
theorem retry_fatal_once (func : Nat → Except AppError α) (e : AppError) (m b mb : Nat)
    (h1 : func 0 = Except.error e)
    (h2 : is_retryable_error e = false) :
    retry_with_backoff func m b mb = (Except.error e, 1, []) := by
  cases m with
  | zero => simp [retry_with_backoff, retryAux, h1]
  | succ m => simp [retry_with_backoff, retryAux, h1, h2]

/-- Witness for C2 at a concrete fatal (non-retryable) error. -/
theorem retry_fatal_once_witness :
    (fun _ : Nat => (Except.error ⟨false, "401 unauthorized"⟩ : Except AppError Nat)) 0 =
        Except.error ⟨false, "401 unauthorized"⟩ ∧
    is_retryable_error ⟨false, "401 unauthorized"⟩ = false ∧
    retry_with_backoff (fun _ : Nat => (Except.error ⟨false, "401 unauthorized"⟩ : Except AppError Nat)) 3 1 16 =
      (Except.error ⟨false, "401 unauthorized"⟩, 1, []) :=
  ⟨rfl, by decide, retry_fatal_once _ _ 3 1 16 rfl (by decide)⟩

/- String append facts used below (String.append is concatenation of the
underlying character lists). -/
theorem str_assoc (a b c : String) : a ++ b ++ c = a ++ (b ++ c) := by
  cases a; cases b; cases c
  show String.mk _ = String.mk _
  rw [List.append_assoc]

theorem strToList_append (a b : String) : (a ++ b).toList = a.toList ++ b.toList := by
  cases a; cases b; rfl

/- One result of the external search dependency, as consumed by app.py
lines 249-251: a dictionary read via `.get` with defaults, so each field is
optional. -/
structure SearchResult where
  document_id : Option String
  title : Option String
  content_text : Option String
deriving DecidableEq

/- The external search dependency: `search_client.search(search_text=query,
top=top_k, include_total_count=True)` materialised by `list(...)`, indexed
by the attempt number so the retry loop can observe a fresh outcome on each
attempt.  Raising is modelled by `Except.error`. -/
structure SearchClient where
  search : String → Nat → Nat → Except AppError (List SearchResult)

/- app.py line 252: `context += f"\n--- Document {count} (ID: {doc_id}, Title: {title}) ---\n"`. -/
def snippetHeader (count : Nat) (r : SearchResult) : String :=
  "\n--- Document " ++ toString count ++ " (ID: " ++ r.document_id.getD "N/A" ++
    ", Title: " ++ r.title.getD "N/A" ++ ") ---\n"

/- app.py lines 252-253: the two `context +=` statements for one result. -/
def snippet (count : Nat) (r : SearchResult) : String :=
  snippetHeader count r ++
    (pyTake (r.content_text.getD "No content available.") 500 ++ "...\n")

/- app.py lines 245-253: the `for result in search_results` loop; `count`
is the number of results already rendered. -/
def contextBody : Nat → List SearchResult → String
  | _, [] => ""
  | count, r :: rs => snippet (count + 1) r ++ contextBody (count + 1) rs

/- app.py lines 230-262, `retrieve_relevant_documents(query, top_k=3)`.
The module-global `search_client` is passed explicitly.  The search call
goes through `retry_with_backoff` with its defaults (3 retries, initial
backoff 1, max backoff 16); any error escaping the retry loop is caught by
the enclosing `except` and turned into the fixed sentinel. -/
def retrieve_relevant_documents (search_client : Option SearchClient)
    (query : String) (top_k : Nat) : String :=
  match search_client with
  | none => "\nSearch functionality is not configured.\n"
  | some sc =>
    match (retry_with_backoff (fun i => sc.search query top_k i) 3 1 16).1 with
    | Except.error _ => "\nError retrieving documents from search index.\n"
    | Except.ok search_results =>
      if search_results.length > 0 then
        "\n\nRelevant Context from Contoso Documents:\n" ++ contextBody 0 search_results
      else "\nNo specific documents found for the query.\n"

/- When every attempt fails, the retry loop propagates an error no matter
how the failures are classified. -/
theorem retryAux_all_error (func : Nat → Except AppError α) (errAt : Nat → AppError)
    (h1 : ∀ i, func i = Except.error (errAt i)) (mb : Nat) :
    ∀ r b i, ∃ e, (retryAux func mb r b i).1 = Except.error e := by
  intro r
  induction r with
  | zero => intro b i; exact ⟨errAt i, by simp [retryAux, h1 i]⟩
  | succ r ih =>
    intro b i
    by_cases hr : is_retryable_error (errAt i) = true
    · obtain ⟨e, he⟩ := ih (min (b * 2) mb) (i + 1)
      exact ⟨e, by simp [retryAux, h1 i, hr, he]⟩
    · exact ⟨errAt i, by simp [retryAux, h1 i, hr]⟩

/-- C3: `retrieve_relevant_documents` never raises: with no search client
configured it returns the fixed "search not configured" sentinel, and with
a search dependency that fails on every attempt (whether fatally or by
exhausting the retries) it returns the fixed "error retrieving documents"
sentinel instead of propagating the error. -/
theorem retrieve_never_raises (sc : SearchClient) (query : String) (top_k : Nat)
    (errAt : Nat → AppError)
    (hfail : ∀ i, sc.search query top_k i = Except.error (errAt i)) :
    retrieve_relevant_documents none query top_k = "\nSearch functionality is not configured.\n" ∧
    retrieve_relevant_documents (some sc) query top_k =
      "\nError retrieving documents from search index.\n" := by
  refine ⟨rfl, ?_⟩
  obtain ⟨e, he⟩ := retryAux_all_error (fun i => sc.search query top_k i) errAt hfail 16 3 1 0
  simp only [retrieve_relevant_documents, retry_with_backoff] at *
  rw [he]

/- A search dependency that is down on every attempt. -/
def failingSearch : SearchClient :=
  ⟨fun _ _ _ => Except.error ⟨false, "service unavailable"⟩⟩

/-- Witness for C3 at a concrete always-failing search dependency. -/
theorem retrieve_never_raises_witness :
    failingSearch.search "career growth" 3 0 = Except.error ⟨false, "service unavailable"⟩ ∧
    retrieve_relevant_documents none "career growth" 3 =
      "\nSearch functionality is not configured.\n" ∧
    retrieve_relevant_documents (some failingSearch) "career growth" 3 =
      "\nError retrieving documents from search index.\n" :=
  ⟨rfl,
    (retrieve_never_raises failingSearch "career growth" 3
      (fun _ => ⟨false, "service unavailable"⟩) (fun _ => rfl)).1,
    (retrieve_never_raises failingSearch "career growth" 3
      (fun _ => ⟨false, "service unavailable"⟩) (fun _ => rfl)).2⟩

/- One chat message: a role/content pair (app.py lines 387-389). -/
structure Message where
  role : String
  content : String
deriving DecidableEq

/- app.py line 385. -/
def system_message : String :=
  "You are a career development expert at Contoso. Create a helpful response based on the user query and the provided context from Contoso documents. If context is available, prioritize it. Do not invent information not present in the context."

/- The params dict passed to `openai_client.chat.completions.create`
(app.py lines 402-413).  Absent keys are `none`; `temperature` 0.5 is the
rational 1/2. -/
structure CompletionParams where
  model : String
  messages : List Message
  timeout : Nat
  temperature : Option ℚ
  max_completion_tokens : Option Nat
deriving DecidableEq

/- app.py lines 402-415 inside `get_completion`: basic parameters for all
models, then model-specific parameters unless the deployment name contains
"o1" after `.lower()`. -/
def completion_params (deployment_name : String) (messages : List Message) : CompletionParams :=
  let params : CompletionParams :=
    { model := deployment_name, messages := messages, timeout := 30,
      temperature := none, max_completion_tokens := none }
  if !(strContains (pyLower deployment_name) "o1") then
    { params with max_completion_tokens := some 1000, temperature := some (1 / 2 : ℚ) }
  else
    params

/-- C4: the completion call's parameter set omits `temperature` and
`max_completion_tokens` iff the deployment name contains "o1"
case-insensitively (i.e. `"o1" in deployment_name.lower()`); otherwise the
parameters additionally carry `temperature = 0.5` and
`max_completion_tokens = 1000`, and in both cases the model, messages and
30-second timeout are sent. -/
theorem completion_params_o1_selection (deployment_name : String) (messages : List Message) :
    (completion_params deployment_name messages).model = deployment_name ∧
    (completion_params deployment_name messages).messages = messages ∧
    (completion_params deployment_name messages).timeout = 30 ∧
    (((completion_params deployment_name messages).temperature = none ∧
      (completion_params deployment_name messages).max_completion_tokens = none) ↔
        strContains (pyLower deployment_name) "o1" = true) ∧
    (if strContains (pyLower deployment_name) "o1" then
      (completion_params deployment_name messages).temperature = none ∧
      (completion_params deployment_name messages).max_completion_tokens = none
     else
      (completion_params deployment_name messages).temperature = some (1 / 2 : ℚ) ∧
      (completion_params deployment_name messages).max_completion_tokens = some 1000) := by
  by_cases h : strContains (pyLower deployment_name) "o1" = true
  · simp [completion_params, h]
  · simp only [Bool.not_eq_true] at h
    simp [completion_params, h]

example :
    (completion_params "o1-preview" []).temperature = none ∧
    (completion_params "o1-preview" []).max_completion_tokens = none := by decide

example :
    (completion_params "gpt-4o" []).temperature = some (1 / 2 : ℚ) ∧
    (completion_params "gpt-4o" []).max_completion_tokens = some 1000 := by
  have h : strContains (pyLower "gpt-4o") "o1" = false := by decide
  simp [completion_params, h]

/- The external completion dependency: attempt-indexed; a successful call
yields `response.choices[0].message.content`. -/
structure OpenAIClient where
  create : CompletionParams → Nat → Except AppError String

/- The module-global client handles of app.py lines 83-85, fixed at
process start. -/
structure AppState where
  openai_client : Option OpenAIClient
  deployment_name : String
  search_client : Option SearchClient

/- The request body as the handler observes it through Flask:
`request.json` is `None` (missing), raises a JSON decode error
(malformed), or yields a dict.  A dict is modelled as its string-valued
fields plus the optional `conversation_history` entry; Python dict
truthiness is "has at least one key". -/
inductive RequestBody where
  | missing
  | malformed
  | obj (fields : List (String × String)) (conversation_history : Option (List Message))

/- A `jsonify(...), code` pair returned by the endpoint. -/
structure HandlerResult where
  code : Nat
  status : String
  message : Option String
  response : Option String
deriving DecidableEq

def errorResp (code : Nat) (msg : String) : HandlerResult :=
  { code := code, status := "error", message := some msg, response := none }

def successResp (content : String) : HandlerResult :=
  { code := 200, status := "success", message := none, response := some content }

/- app.py lines 352-449, `generate_career_plan_rag`.  The `openai_client`
guard runs before the body is touched; `request.json` failures land in the
`json.JSONDecodeError` handler; a falsy parsed body (None or `{}`) is
rejected; a falsy `query` (absent or empty) is rejected; then the RAG
pipeline runs: retrieval (never raises), prompt assembly, completion under
`retry_with_backoff(get_completion, max_retries=3, initial_backoff=2)`,
and any error propagating out of the retry loop becomes a 500. -/
def generate_career_plan_rag (st : AppState) (body : RequestBody) : HandlerResult :=
  match st.openai_client with
  | none => errorResp 503 "Service configuration error: OpenAI client not available."
  | some client =>
    match body with
    | RequestBody.malformed => errorResp 400 "Invalid JSON format in request body."
    | RequestBody.missing => errorResp 400 "Request body must be JSON."
    | RequestBody.obj fields history =>
      if fields.isEmpty && history.isNone then
        errorResp 400 "Request body must be JSON."
      else
        match fields.lookup "query" with
        | none => errorResp 400 "Missing required field: query"
        | some query =>
          if query = "" then errorResp 400 "Missing required field: query"
          else
            let retrieved_context := retrieve_relevant_documents st.search_client query 3
            let messages := (⟨"system", system_message⟩ : Message) ::
              (history.getD [] ++
                [⟨"user", "Query: " ++ query ++ "\n\nContext:\n" ++ retrieved_context⟩])
            let params := completion_params st.deployment_name messages
            match (retry_with_backoff (fun i => client.create params i) 3 2 16).1 with
            | Except.ok content => successResp content
            | Except.error e => errorResp 500 ("An unexpected server error occurred: " ++ e.msg)

/-- C6: while the completion client handle was never constructed, every
request is answered 503 with an error message, whatever the body is — the
guard runs before the body is read or parsed, so even a malformed body
yields 503, not 400. -/
theorem career_plan_unconfigured_503 (st : AppState) (body : RequestBody)
    (h : st.openai_client = none) :
    generate_career_plan_rag st body =
      errorResp 503 "Service configuration error: OpenAI client not available." := by
  simp [generate_career_plan_rag, h]

/- A state whose completion dependency was never constructed. -/
def stNoOpenAI : AppState :=
  { openai_client := none, deployment_name := "gpt-4o", search_client := none }

/-- Witness for C6: with the completion client absent, even an unparseable
body receives the 503 response. -/
theorem career_plan_unconfigured_503_witness :
    stNoOpenAI.openai_client = none ∧
    generate_career_plan_rag stNoOpenAI RequestBody.malformed =
      errorResp 503 "Service configuration error: OpenAI client not available." :=
  ⟨rfl, career_plan_unconfigured_503 stNoOpenAI RequestBody.malformed rfl⟩

/- A completion dependency that answers immediately; used to exercise the
handler with the completion client constructed. -/
def dummyOpenAI : OpenAIClient :=
  ⟨fun _ _ => Except.ok "Here is your career plan."⟩

/- A state whose completion client is constructed and whose search client
is not. -/
def stReady : AppState :=
  { openai_client := some dummyOpenAI, deployment_name := "gpt-4o", search_client := none }

/-- Counterexample for C5: with the completion client constructed, the body
`{}` (an empty JSON object) is answered 400, but with the fixed message
"Request body must be JSON." — the message does not mention the missing
`query` field, because an empty dict is falsy in Python and is rejected by
the `if not request_data` guard before the query check is reached. -/
theorem career_plan_empty_object_message :
    generate_career_plan_rag stReady (RequestBody.obj [] none) =
      errorResp 400 "Request body must be JSON." ∧
    strContains "Request body must be JSON." "query" = false :=
  ⟨rfl, by decide⟩

/-- C5 (amended): with the completion client constructed, a missing body,
a malformed body, and a body lacking the `query` field are all answered
400.  The body `{}` is answered 400 with the fixed message "Request body
must be JSON." (the empty object is caught by the falsy-body guard); a
non-empty body lacking `query` is answered 400 with "Missing required
field: query", which mentions the missing query field. -/
theorem career_plan_bad_input_400 (st : AppState) (client : OpenAIClient)
    (fields : List (String × String)) (history : Option (List Message))
    (h : st.openai_client = some client) :
    (generate_career_plan_rag st RequestBody.missing).code = 400 ∧
    (generate_career_plan_rag st RequestBody.malformed).code = 400 ∧
    (fields.lookup "query" = none →
      (generate_career_plan_rag st (RequestBody.obj fields history)).code = 400) ∧
    generate_career_plan_rag st (RequestBody.obj [] none) =
      errorResp 400 "Request body must be JSON." ∧
    (fields.isEmpty = false → fields.lookup "query" = none →
      generate_career_plan_rag st (RequestBody.obj fields history) =
        errorResp 400 "Missing required field: query" ∧
      strContains "Missing required field: query" "query" = true) := by
  refine ⟨by simp [generate_career_plan_rag, h, errorResp], 
    by simp [generate_career_plan_rag, h, errorResp], ?_, 
    by simp [generate_career_plan_rag, h], ?_⟩
  · intro hq
    by_cases he : (fields.isEmpty && history.isNone) = true
    · simp [generate_career_plan_rag, h, he, errorResp]
    · simp only [Bool.not_eq_true] at he
      simp [generate_career_plan_rag, h, he, hq, errorResp]
  · intro hne hq
    have he : (fields.isEmpty && history.isNone) = false := by simp [hne]
    exact ⟨by simp [generate_career_plan_rag, h, he, hq], by decide⟩

/-- Witness for C5 (amended) at a concrete state and a concrete non-empty
body lacking `query`. -/
theorem career_plan_bad_input_400_witness :
    stReady.openai_client = some dummyOpenAI ∧
    ((generate_career_plan_rag stReady RequestBody.missing).code = 400 ∧
    (generate_career_plan_rag stReady RequestBody.malformed).code = 400 ∧
    ([("name", "sam")].lookup "query" = none →
      (generate_career_plan_rag stReady (RequestBody.obj [("name", "sam")] none)).code = 400) ∧
    generate_career_plan_rag stReady (RequestBody.obj [] none) =
      errorResp 400 "Request body must be JSON." ∧
    (([("name", "sam")] : List (String × String)).isEmpty = false →
      [("name", "sam")].lookup "query" = none →
      generate_career_plan_rag stReady (RequestBody.obj [("name", "sam")] none) =
        errorResp 400 "Missing required field: query" ∧
      strContains "Missing required field: query" "query" = true)) :=
  ⟨rfl, career_plan_bad_input_400 stReady dummyOpenAI [("name", "sam")] none rfl⟩

/- The environment variables read at process start (app.py lines 30-38):
`none` models an unset variable. -/
structure Env where
  azure_openai_endpoint : Option String
  azure_openai_api_key : Option String
  azure_openai_deployment_name : Option String
  azure_search_service_endpoint : Option String
  azure_search_admin_key : Option String
  azure_search_index_name : Option String
deriving DecidableEq

/- Python truthiness of an optional environment value: unset or empty is
falsy. -/
def truthy : Option String → Bool
  | none => false
  | some s => !(s == "")

/- app.py line 33: `os.environ.get("AZURE_OPENAI_DEPLOYMENT_NAME", "gpt-4o")`. -/
def selected_deployment_name (env : Env) : String :=
  env.azure_openai_deployment_name.getD "gpt-4o"

/- app.py lines 41-47: API version keyed on the deployment name. -/
def api_version (env : Env) : String :=
  if strContains (pyLower (selected_deployment_name env)) "o1" then "2024-12-01-preview"
  else "2023-12-01-preview"

/- The ENV_VARS dict (app.py lines 30-49), in insertion order. -/
def ENV_VARS (env : Env) : List (String × Option String) :=
  [("AZURE_OPENAI_ENDPOINT", env.azure_openai_endpoint),
   ("AZURE_OPENAI_API_KEY", env.azure_openai_api_key),
   ("AZURE_OPENAI_DEPLOYMENT_NAME", some (selected_deployment_name env)),
   ("AZURE_SEARCH_SERVICE_ENDPOINT", env.azure_search_service_endpoint),
   ("AZURE_SEARCH_ADMIN_KEY", env.azure_search_admin_key),
   ("AZURE_SEARCH_INDEX_NAME", env.azure_search_index_name),
   ("AZURE_OPENAI_API_VERSION", some (api_version env))]

/- app.py lines 276-280 and 307-311: the env-presence map included in the
`/` and `/health` bodies — `"SET"`/`"NOT SET"` per variable, skipping every
key whose upper-cased name contains "KEY". -/
def env_presence (env : Env) : List (String × String) :=
  (ENV_VARS env).filterMap fun kv =>
    if strContains kv.1 "KEY" then none
    else some (kv.1, if truthy kv.2 then "SET" else "NOT SET")

/- The JSON body answered by `/health` (app.py lines 283-350): either the
fixed infrastructure-probe body or the detailed diagnostics body. -/
inductive HealthBody where
  | probe (status message instanceId : String)
  | detailed (status webapp openai search : String)
      (dns_checks : List (String × String))
      (environment_variables : List (String × String))
      (warnings : Option String) (instanceId : String)
deriving DecidableEq

def HealthBody.topStatus : HealthBody → String
  | probe s _ _ => s
  | detailed s _ _ _ _ _ _ _ => s

/- app.py lines 320-328: one `dns_checks` entry from `check_dns_resolution`
(modelled by the oracle `dns`, returning success plus either the resolved
address or the error text). -/
def dnsEntry (dns : String → Bool × String) (url : String) : String :=
  if (dns url).1 then "healthy" else "degraded: " ++ (dns url).2

/- app.py lines 283-350, `health_check`.  The caller's agent identity is
the User-Agent header; `'Health' in user_agent or 'health' in user_agent`
selects the infrastructure-probe branch.  Dependency reachability is the
external `dns` oracle; the two client handles enter only through their
presence. -/
def health_check (env : Env) (dns : String → Bool × String)
    (openai_present search_present : Bool) (initialization_error : Option String)
    (instanceId : String) (user_agent : String) : Nat × HealthBody :=
  if strContains user_agent "Health" || strContains user_agent "health" then
    (200, HealthBody.probe "healthy" "Basic infrastructure health check passed" instanceId)
  else
    let env_status := env_presence env
    let dns_checks :=
      (if truthy env.azure_openai_endpoint then
        [("openai_endpoint", dnsEntry dns (env.azure_openai_endpoint.getD ""))]
       else []) ++
      (if truthy env.azure_search_service_endpoint then
        [("search_endpoint", dnsEntry dns (env.azure_search_service_endpoint.getD ""))]
       else [])
    (200, HealthBody.detailed "healthy" "healthy"
      (if openai_present then "healthy" else "degraded")
      (if search_present then "healthy" else "degraded")
      dns_checks env_status initialization_error instanceId)

/- An environment with nothing configured, and a DNS oracle that always
resolves; used for concrete endpoint evaluations. -/
def envEmpty : Env := ⟨none, none, none, none, none, none⟩

def dnsAlwaysUp : String → Bool × String := fun url => (true, url)

/-- Counterexample for C7: the agent string "HEALTHCHECK" contains "health"
case-insensitively, yet the handler serves the detailed diagnostics body,
not the fixed infrastructure-probe body — the code tests only for the
exact substrings "Health" and "health". -/
theorem health_check_uppercase_not_probe :
    strContains (pyLower "HEALTHCHECK") "health" = true ∧
    health_check envEmpty dnsAlwaysUp false false none "unknown" "HEALTHCHECK" =
      (200, HealthBody.detailed "healthy" "healthy" "degraded" "degraded" []
        [("AZURE_OPENAI_ENDPOINT", "NOT SET"), ("AZURE_OPENAI_DEPLOYMENT_NAME", "SET"),
         ("AZURE_SEARCH_SERVICE_ENDPOINT", "NOT SET"), ("AZURE_SEARCH_INDEX_NAME", "NOT SET"),
         ("AZURE_OPENAI_API_VERSION", "SET")] none "unknown") ∧
    (health_check envEmpty dnsAlwaysUp false false none "unknown" "HEALTHCHECK").2 ≠
      HealthBody.probe "healthy" "Basic infrastructure health check passed" "unknown" := by
  exact ⟨by decide, by decide, by decide⟩

/-- C7 (amended): a `/health` request whose agent identity contains the
exact substring "Health" or "health" receives HTTP 200 with the fixed
infrastructure-probe body whose top-level status is "healthy", regardless
of the state of the two dependency client handles (agent strings that only
contain the word in another letter case, such as "HEALTHCHECK", instead
receive the detailed diagnostics body, also 200/"healthy"). -/
theorem health_check_probe_branch (env : Env) (dns : String → Bool × String)
    (openai_present search_present : Bool) (initialization_error : Option String)
    (instanceId : String) (user_agent : String)
    (h : (strContains user_agent "Health" || strContains user_agent "health") = true) :
    health_check env dns openai_present search_present initialization_error instanceId user_agent =
      (200, HealthBody.probe "healthy" "Basic infrastructure health check passed" instanceId) ∧
    (health_check env dns openai_present search_present initialization_error instanceId
        user_agent).2.topStatus = "healthy" := by
  refine ⟨by simp [health_check, h], ?_⟩
  simp [health_check, h, HealthBody.topStatus]

/-- Witness for C7 (amended) at the spec's example agent "HealthCheck",
with both dependency handles absent. -/
theorem health_check_probe_branch_witness :
    (strContains "HealthCheck" "Health" || strContains "HealthCheck" "health") = true ∧
    (health_check envEmpty dnsAlwaysUp false false none "unknown" "HealthCheck" =
      (200, HealthBody.probe "healthy" "Basic infrastructure health check passed" "unknown") ∧
    (health_check envEmpty dnsAlwaysUp false false none "unknown" "HealthCheck").2.topStatus =
      "healthy") :=
  ⟨by decide,
    health_check_probe_branch envEmpty dnsAlwaysUp false false none "unknown" "HealthCheck"
      (by decide)⟩

/- app.py line 90: `all([...])` over the three OpenAI configuration values. -/
def openai_configured (env : Env) : Bool :=
  truthy env.azure_openai_endpoint && truthy env.azure_openai_api_key &&
    truthy (some (selected_deployment_name env))

/- app.py line 164: `all([...])` over the three Search configuration values. -/
def search_configured (env : Env) : Bool :=
  truthy env.azure_search_service_endpoint && truthy env.azure_search_admin_key &&
    truthy env.azure_search_index_name

/- app.py lines 91-92: the falsy OpenAI configuration keys, in order. -/
def missing_openai_vars (env : Env) : List String :=
  (if truthy env.azure_openai_endpoint then [] else ["AZURE_OPENAI_ENDPOINT"]) ++
  (if truthy env.azure_openai_api_key then [] else ["AZURE_OPENAI_API_KEY"]) ++
  (if truthy (some (selected_deployment_name env)) then [] else ["AZURE_OPENAI_DEPLOYMENT_NAME"])

/- app.py lines 165-166: the falsy Search configuration keys, in order. -/
def missing_search_vars (env : Env) : List String :=
  (if truthy env.azure_search_service_endpoint then [] else ["AZURE_SEARCH_SERVICE_ENDPOINT"]) ++
  (if truthy env.azure_search_admin_key then [] else ["AZURE_SEARCH_ADMIN_KEY"]) ++
  (if truthy env.azure_search_index_name then [] else ["AZURE_SEARCH_INDEX_NAME"])

/- app.py lines 86-196: the `initialization_error` computed at process
start.  Client construction and the connectivity probe are external
effects whose failures do not depend on the configuration values; they are
modelled as succeeding, so the only error sources are the two
missing-configuration checks (the search one fires only if no error was
recorded yet, line 169). -/
def computeInitError (env : Env) : Option String :=
  let e1 : Option String :=
    if openai_configured env then none
    else some ("Azure OpenAI configuration missing in environment variables: " ++
      String.intercalate ", " (missing_openai_vars env))
  if search_configured env then e1
  else
    match e1 with
    | some e => some e
    | none => some ("Azure Search configuration missing in environment variables: " ++
        String.intercalate ", " (missing_search_vars env) ++ ". RAG features will be disabled.")

/- The JSON body answered by `/` (app.py lines 265-281). -/
structure IndexBody where
  service : String
  status : String
  environment_variables : List (String × String)
deriving DecidableEq

/- app.py lines 269-271. -/
def status_message (initialization_error : Option String) : String :=
  match initialization_error with
  | none => "running"
  | some e => "running with initialization errors: " ++ e

/- app.py lines 265-281, the `/` endpoint. -/
def index (env : Env) (initialization_error : Option String) : IndexBody :=
  { service := "Career Plan Connector V4 (RAG Enabled - Enhanced Network Reliability)",
    status := status_message initialization_error,
    environment_variables := env_presence env }

/-- C9: the `/` response body never carries the raw value of a credential
variable (the variables whose names contain "KEY"): two configurations
that agree outside the two credential variables, with both credentials
configured (set to non-empty strings) in each, produce identical response
bodies — the body is independent of the credential values. -/
theorem index_credential_noninterference (env1 env2 : Env)
    (h1 : env1.azure_openai_endpoint = env2.azure_openai_endpoint)
    (h2 : env1.azure_openai_deployment_name = env2.azure_openai_deployment_name)
    (h3 : env1.azure_search_service_endpoint = env2.azure_search_service_endpoint)
    (h4 : env1.azure_search_index_name = env2.azure_search_index_name)
    (hk1 : truthy env1.azure_openai_api_key = true)
    (hk2 : truthy env2.azure_openai_api_key = true)
    (hk3 : truthy env1.azure_search_admin_key = true)
    (hk4 : truthy env2.azure_search_admin_key = true) :
    index env1 (computeInitError env1) = index env2 (computeInitError env2) := by
  have k1 : strContains "AZURE_OPENAI_API_KEY" "KEY" = true := by decide
  have k2 : strContains "AZURE_SEARCH_ADMIN_KEY" "KEY" = true := by decide
  have n1 : strContains "AZURE_OPENAI_ENDPOINT" "KEY" = false := by decide
  have n2 : strContains "AZURE_OPENAI_DEPLOYMENT_NAME" "KEY" = false := by decide
  have n3 : strContains "AZURE_SEARCH_SERVICE_ENDPOINT" "KEY" = false := by decide
  have n4 : strContains "AZURE_SEARCH_INDEX_NAME" "KEY" = false := by decide
  have n5 : strContains "AZURE_OPENAI_API_VERSION" "KEY" = false := by decide
  simp [index, env_presence, ENV_VARS, computeInitError, openai_configured, search_configured,
    missing_openai_vars, missing_search_vars, selected_deployment_name, api_version,
    status_message, List.filterMap_cons, h1, h2, h3, h4, hk1, hk2, hk3, hk4,
    k1, k2, n1, n2, n3, n4, n5]

/-- Witness for C9: two fully configured environments that differ exactly
in the two credential values produce the same `/` body. -/
theorem index_credential_noninterference_witness :
    truthy (some "secret-key-AAA") = true ∧ truthy (some "secret-key-BBB") = true ∧
    truthy (some "admin-key-AAA") = true ∧ truthy (some "admin-key-BBB") = true ∧
    index ⟨some "https://oai.example.net", some "secret-key-AAA", some "gpt-4o",
        some "https://search.example.net", some "admin-key-AAA", some "docs-index"⟩
      (computeInitError ⟨some "https://oai.example.net", some "secret-key-AAA", some "gpt-4o",
        some "https://search.example.net", some "admin-key-AAA", some "docs-index"⟩) =
    index ⟨some "https://oai.example.net", some "secret-key-BBB", some "gpt-4o",
        some "https://search.example.net", some "admin-key-BBB", some "docs-index"⟩
      (computeInitError ⟨some "https://oai.example.net", some "secret-key-BBB", some "gpt-4o",
        some "https://search.example.net", some "admin-key-BBB", some "docs-index"⟩) :=
  ⟨by decide, by decide, by decide, by decide,
    index_credential_noninterference _ _ rfl rfl rfl rfl (by decide) (by decide) (by decide)
      (by decide)⟩

theorem str_empty_append (s : String) : "" ++ s = s := by
  cases s; rfl

/- Rendering a concatenated result list splits at the list concatenation;
the running `count` continues across the split. -/
theorem contextBody_append (bs : List SearchResult) :
    ∀ (as : List SearchResult) (n : Nat),
      contextBody n (as ++ bs) = contextBody n as ++ contextBody (n + as.length) bs := by
  intro as
  induction as with
  | nil => intro n; simp [contextBody, str_empty_append]
  | cons a as ih =>
    intro n
    simp only [List.cons_append, contextBody, List.append_eq, ih, str_assoc, List.length_cons]
    rw [show n + 1 + as.length = n + (as.length + 1) from by omega]

/- The context block rendered for a successful first search attempt whose
result list contains `r` (with content `c`) exposes the truncated content
followed by "..." between a fixed prefix and a fixed suffix. -/
theorem retrieve_renders_snippet (sc : SearchClient) (query : String) (top_k : Nat)
    (results as bs : List SearchResult) (r : SearchResult) (c : String)
    (hok : sc.search query top_k 0 = Except.ok results)
    (hsplit : results = as ++ r :: bs)
    (hc : r.content_text = some c) :
    retrieve_relevant_documents (some sc) query top_k =
      ("\n\nRelevant Context from Contoso Documents:\n" ++
        (contextBody 0 as ++ snippetHeader (as.length + 1) r)) ++
      (pyTake c 500 ++ "...") ++ ("\n" ++ contextBody (as.length + 1) bs) := by
  subst hsplit
  have hres : (retry_with_backoff (fun i => sc.search query top_k i) 3 1 16).1 =
      Except.ok (as ++ r :: bs) := by
    simp [retry_with_backoff, retryAux, hok]
  have hlen : (as ++ r :: bs).length > 0 := by simp
  simp only [retrieve_relevant_documents, hres, hlen, if_pos]
  rw [contextBody_append (r :: bs) as 0]
  simp only [contextBody, snippet, hc, Option.getD_some, Nat.zero_add]
  rw [show ("...\n" : String) = "..." ++ "\n" from rfl]
  simp only [str_assoc]

/-- C8: a search result whose content is longer than 500 characters is
rendered into the returned context block as exactly the first 500
characters of that content immediately followed by "...". -/
theorem retrieve_truncates_long_content (sc : SearchClient) (query : String) (top_k : Nat)
    (results as bs : List SearchResult) (r : SearchResult) (c : String)
    (hok : sc.search query top_k 0 = Except.ok results)
    (hsplit : results = as ++ r :: bs)
    (hc : r.content_text = some c)
    (hlen : 500 < c.toList.length) :
    (∃ pre post, retrieve_relevant_documents (some sc) query top_k =
        pre ++ (pyTake c 500 ++ "...") ++ post) ∧
    (pyTake c 500).toList = c.toList.take 500 ∧
    (pyTake c 500).toList.length = 500 := by
  refine ⟨⟨_, _, retrieve_renders_snippet sc query top_k results as bs r c hok hsplit hc⟩,
    rfl, ?_⟩
  show (c.toList.take 500).length = 500
  rw [List.length_take]
  omega

/- A search dependency returning a single document whose content has 501
characters. -/
def longDoc : SearchResult :=
  ⟨some "doc-1", some "Long Document", some (String.mk (List.replicate 501 'x'))⟩

def longSearch : SearchClient := ⟨fun _ _ _ => Except.ok [longDoc]⟩

/-- Witness for C8 at a concrete 501-character document. -/
theorem retrieve_truncates_long_content_witness :
    longSearch.search "growth" 3 0 = Except.ok [longDoc] ∧
    [longDoc] = [] ++ longDoc :: [] ∧
    longDoc.content_text = some (String.mk (List.replicate 501 'x')) ∧
    500 < (String.mk (List.replicate 501 'x')).toList.length ∧
    ((∃ pre post, retrieve_relevant_documents (some longSearch) "growth" 3 =
        pre ++ (pyTake (String.mk (List.replicate 501 'x')) 500 ++ "...") ++ post) ∧
    (pyTake (String.mk (List.replicate 501 'x')) 500).toList =
      (String.mk (List.replicate 501 'x')).toList.take 500 ∧
    (pyTake (String.mk (List.replicate 501 'x')) 500).toList.length = 500) :=
  ⟨rfl, rfl, rfl,
    by show 500 < (List.replicate 501 'x').length; rw [List.length_replicate]; omega,
    retrieve_truncates_long_content longSearch "growth" 3 [longDoc] [] [] longDoc
      (String.mk (List.replicate 501 'x')) rfl rfl rfl
      (by show 500 < (List.replicate 501 'x').length; rw [List.length_replicate]; omega)⟩

/-- C10: the "..." suffix is appended unconditionally — every rendered
snippet is `content[:500] + "..."`, and for a content of at most 500
characters the slice is the whole content, so short contents also end in
"...". -/
theorem retrieve_appends_ellipsis_always (sc : SearchClient) (query : String) (top_k : Nat)
    (results as bs : List SearchResult) (r : SearchResult) (c : String)
    (hok : sc.search query top_k 0 = Except.ok results)
    (hsplit : results = as ++ r :: bs)
    (hc : r.content_text = some c) :
    (∃ pre post, retrieve_relevant_documents (some sc) query top_k =
        pre ++ (pyTake c 500 ++ "...") ++ post) ∧
    (c.toList.length ≤ 500 → pyTake c 500 = c) := by
  refine ⟨⟨_, _, retrieve_renders_snippet sc query top_k results as bs r c hok hsplit hc⟩, ?_⟩
  intro h
  simp only [pyTake]
  rw [List.take_of_length_le h]
  cases c; rfl

/- A search dependency returning a single document whose content has 10
characters. -/
def shortDoc : SearchResult := ⟨some "doc-2", some "Short Document", some "short note"⟩

def shortSearch : SearchClient := ⟨fun _ _ _ => Except.ok [shortDoc]⟩

/-- Witness for C10 at a concrete 10-character document: the whole content
plus "..." appears in the context block. -/
theorem retrieve_appends_ellipsis_always_witness :
    shortSearch.search "growth" 3 0 = Except.ok [shortDoc] ∧
    [shortDoc] = [] ++ shortDoc :: [] ∧
    shortDoc.content_text = some "short note" ∧
    ((∃ pre post, retrieve_relevant_documents (some shortSearch) "growth" 3 =
        pre ++ (pyTake "short note" 500 ++ "...") ++ post) ∧
    (("short note" : String).toList.length ≤ 500 → pyTake "short note" 500 = "short note")) :=
  ⟨rfl, rfl, rfl,
    retrieve_appends_ellipsis_always shortSearch "growth" 3 [shortDoc] [] [] shortDoc
      "short note" rfl rfl rfl⟩
